import Mathlib

/-!
Verification of the vanilla-JavaScript Redux store factory
(`src/index.js` and the combined todos/goals variant in `src/unnamed/part_000`).

The embedding mirrors the JavaScript source:
* a JS reducer receives a possibly-`undefined` prior state, modelled as
  `Option σ`; the `state = []` / `state = {}` default parameters become
  `Option.getD`;
* the store's closure variables `state` (initially `undefined`) and
  `listeners` (initially `[]`) become fields of a `Store` structure;
  listener references (compared with `!==` in `filter`) are values of an
  arbitrary type `L` with decidable equality;
* `dispatch` returns the new store, the ordered sequence of listener
  invocations performed by `listeners.forEach`, and the JavaScript return
  value of the arrow function (which has no `return` statement, hence
  `undefined`);
* a reducer that may throw is modelled with `Except`; since the assignment
  `state = reducer(state, action)` evaluates its right-hand side first, a
  throw leaves `state` unassigned and skips the `forEach` loop.
-/

namespace Redux

/-- A todo entity record: `{ id, name, complete }` as used by the `todos`
slice reducer in `src/index.js`. -/
structure Todo where
  id : Nat
  name : String
  complete : Bool
deriving DecidableEq, Repr

/-- A goal entity record: `{ id, name }` as used by the `goals` slice
reducer in `src/unnamed/part_000`. -/
structure Goal where
  id : Nat
  name : String
deriving DecidableEq, Repr

/-- Actions, tagged by their `type` string. The five recognized kinds carry
exactly the payload the reducers read (`action.todo`, `action.goal`,
`action.id`); `unknown ty` stands for an action whose `type` string is any
other value, which every `switch` sends to its `default` branch. -/
inductive Action where
  | addTodo (todo : Todo)
  | removeTodo (id : Nat)
  | toggleTodo (id : Nat)
  | addGoal (goal : Goal)
  | removeGoal (id : Nat)
  | unknown (ty : String)
deriving DecidableEq, Repr

/-- The `todos` slice reducer (`src/index.js` lines 31–43):
`function todos(state = [], action)` switching on `action.type`:
`ADD_TODO` appends via `concat`, `REMOVE_TODO` filters out matching ids,
`TOGGLE_TODO` maps, replacing the matching entity by a copy with the
`complete` flag inverted, and `default` returns the (defaulted) state. -/
def todos (state : Option (List Todo)) (action : Action) : List Todo :=
  let s := state.getD []
  match action with
  | .addTodo todo => s ++ [todo]
  | .removeTodo id => s.filter (fun todo => todo.id ≠ id)
  | .toggleTodo id =>
      s.map (fun todo =>
        if todo.id ≠ id then todo else { todo with complete := !todo.complete })
  | _ => s

/-- The `goals` slice reducer (`src/unnamed/part_000` lines 52–61):
`ADD_GOAL` appends via `concat`, `REMOVE_GOAL` filters out matching ids,
`default` returns the (defaulted) state. -/
def goals (state : Option (List Goal)) (action : Action) : List Goal :=
  let s := state.getD []
  match action with
  | .addGoal goal => s ++ [goal]
  | .removeGoal id => s.filter (fun goal => goal.id ≠ id)
  | _ => s

/-- The aggregate state `{ todos, goals }` assembled by the root reducer. -/
structure AppState where
  todos : List Todo
  goals : List Goal
deriving DecidableEq, Repr

/-- The root reducer `app` (`src/unnamed/part_000` lines 63–68):
`function app(state = {}, action)` returns
`{ todos: todos(state.todos, action), goals: goals(state.goals, action) }`.
Reading `.todos` on the defaulted `{}` yields `undefined`, hence the
`Option.map`. -/
def app (state : Option AppState) (action : Action) : AppState :=
  { todos := todos (state.map (fun s => s.todos)) action
    goals := goals (state.map (fun s => s.goals)) action }

/-- The store created by `createStore(reducer)` (`src/index.js` lines 4–28):
the closure variables `state` (declared `let state`, so initially
`undefined`) and `listeners` (initially `[]`), together with the captured
`reducer`. `L` is the type of listener references. -/
structure Store (σ α L : Type) where
  reducer : Option σ → α → σ
  state : Option σ
  listeners : List L

/-- `createStore(reducer)`: fresh closure state — `state` is `undefined`,
`listeners` is `[]`. -/
def createStore {σ α L : Type} (reducer : Option σ → α → σ) : Store σ α L :=
  { reducer := reducer, state := none, listeners := [] }

/-- `getState = () => state`. -/
def getState {σ α L : Type} (store : Store σ α L) : Option σ :=
  store.state

/-- `subscribe(listener)`: `listeners.push(listener)` appends at the end. -/
def subscribe {σ α L : Type} (store : Store σ α L) (listener : L) : Store σ α L :=
  { store with listeners := store.listeners ++ [listener] }

/-- The unsubscribe closure returned by `subscribe`:
`listeners = listeners.filter((l) => l !== listener)`, applied to the
store's current listener list. -/
def unsubscribe {σ α L : Type} [DecidableEq L] (store : Store σ α L) (listener : L) :
    Store σ α L :=
  { store with listeners := store.listeners.filter (fun l => l ≠ listener) }

/-- The JavaScript return value of a function call: `undefined` when the
body has no `return` statement. -/
inductive JsRet (α : Type) where
  | undefined
  | value (a : α)
deriving DecidableEq, Repr

/-- `dispatch(action)` (`src/index.js` lines 18–21): assigns
`state = reducer(state, action)`, then `listeners.forEach((l) => l())`.
Returns the updated store, the ordered sequence of listener invocations
performed by the `forEach`, and the arrow function's JavaScript return
value — the body has no `return` statement, so it is `undefined`. -/
def dispatch {σ α L : Type} (store : Store σ α L) (action : α) :
    Store σ α L × List L × JsRet α :=
  ({ store with state := some (store.reducer store.state action) },
   store.listeners, JsRet.undefined)

/-- Dispatch a whole sequence of actions, keeping only the store. -/
def dispatchAll {σ α L : Type} (store : Store σ α L) (actions : List α) : Store σ α L :=
  actions.foldl (fun st a => (dispatch st a).1) store

/-- A store whose configured reducer may throw, modelled with `Except`. -/
structure StoreE (σ α ε L : Type) where
  reducer : Option σ → α → Except ε σ
  state : Option σ
  listeners : List L

/-- `dispatch(action)` for a throwing reducer. The assignment
`state = reducer(state, action)` evaluates its right-hand side first: if
the reducer throws, no assignment happens, the `forEach` is never reached,
and the exception propagates to the caller of `dispatch`; otherwise the
new state is assigned and every current listener is invoked in order. The
result is the store afterwards, the listener invocations performed, and
the propagated outcome. -/
def dispatchE {σ α ε L : Type} (store : StoreE σ α ε L) (action : α) :
    StoreE σ α ε L × List L × Except ε Unit :=
  match store.reducer store.state action with
  | Except.error e => (store, [], Except.error e)
  | Except.ok s => ({ store with state := some s }, store.listeners, Except.ok ())

/-! ## General store lemmas -/

/-- `dispatch` neither inspects nor changes the reducer or the listener
list; the new state is the reducer applied to the old state and the
action. -/
theorem dispatch_store_eq {σ α L : Type} (st : Store σ α L) (a : α) :
    (dispatch st a).1 =
      { reducer := st.reducer, state := some (st.reducer st.state a),
        listeners := st.listeners } :=
  rfl

/-- The state after dispatching a sequence of actions is the left fold of
the reducer (wrapped in `some` at each step, since JS assigns a defined
value) over the starting state — independent of the listener list. -/
theorem getState_dispatchAll {σ α L : Type} (st : Store σ α L) (as : List α) :
    getState (dispatchAll st as) =
      as.foldl (fun s a => some (st.reducer s a)) st.state := by
  induction as generalizing st with
  | nil => rfl
  | cons a as ih =>
      simpa [dispatchAll, dispatch] using ih (dispatch st a).1

/-- C1: for every reducer and every finite sequence of actions dispatched
on a store created from it, `getState()` observed after each dispatch (i.e.
after any prefix of the sequence) equals the left fold of the reducer over
the store's initial (unset) state and that prefix; the store holds no
hidden state beyond this fold. -/
theorem store_state_is_fold {σ α : Type} (r : Option σ → α → σ)
    (as : List α) (n : Nat) :
    getState (dispatchAll (createStore (L := Nat) r) (as.take n)) =
      (as.take n).foldl (fun s a => some (r s a)) none := by
  simpa [createStore] using
    getState_dispatchAll (createStore (L := Nat) r) (as.take n)

/-- C2 counterexample: `createStore` never invokes the reducer, so a fresh
store built from the combined `app` reducer has `undefined` state —
`getState()` before any dispatch is not `{ todos: [], goals: [] }`. -/
theorem fresh_store_state_cex :
    getState (createStore (L := Nat) app) = none ∧
      getState (createStore (L := Nat) app) ≠
        some { todos := [], goals := [] } := by
  exact ⟨rfl, by simp [getState, createStore]⟩

/-- C2 amended: immediately after `create(reducer)` and before any
dispatch, the store's state is unset (`undefined`); the reducer's
default-parameter fallback supplies the initial slice values only at the
first dispatch — after dispatching any first action `a` the state is
`app undefined a`, and in particular after a first action of unrecognized
kind it is `{ todos: [], goals: [] }`. -/
theorem fresh_store_state_amended :
    getState (createStore (L := Nat) app) = none ∧
      (∀ a : Action,
        getState (dispatch (createStore (L := Nat) app) a).1 = some (app none a)) ∧
      (∀ ty : String,
        getState (dispatch (createStore (L := Nat) app) (Action.unknown ty)).1 =
          some { todos := [], goals := [] }) :=
  ⟨rfl, fun _ => rfl, fun _ => rfl⟩

/-- C3 counterexample: the arrow function bound to `dispatch` has no
`return` statement, so `dispatch(action)` returns `undefined`, not the
dispatched action. -/
theorem dispatch_return_cex :
    (dispatch (createStore (L := Nat) app) (Action.unknown "X")).2.2 ≠
      JsRet.value (Action.unknown "X") := by
  simp [dispatch]

/-- C3 amended: for every store and every action, `dispatch(action)`
returns `undefined` (it does not echo its input; call-site chaining on the
return value is not supported by this implementation). -/
theorem dispatch_return_amended {σ α L : Type} (st : Store σ α L) (a : α) :
    (dispatch st a).2.2 = JsRet.undefined :=
  rfl

/-- C4: if the configured reducer throws on the current state and the
dispatched action, `dispatch` propagates the error to its caller, leaves
the store (in particular its state) exactly as it was, and invokes no
listener. -/
theorem dispatch_reducer_error {σ α ε L : Type} (st : StoreE σ α ε L)
    (a : α) (e : ε) (h : st.reducer st.state a = Except.error e) :
    dispatchE st a = (st, [], Except.error e) := by
  simp [dispatchE, h]

/-- A concrete store whose reducer always throws. -/
def failStore : StoreE Nat Nat Nat Nat :=
  { reducer := fun _ _ => Except.error 7, state := some 1, listeners := [0, 1] }

/-- Witness for `dispatch_reducer_error` at a concrete store and action. -/
theorem dispatch_reducer_error_witness :
    dispatchE failStore 5 = (failStore, [], Except.error 7) :=
  dispatch_reducer_error failStore 5 7 rfl

/-- C5 counterexample: registering the same listener reference twice
(`listeners.push` appends both) and then invoking one unsubscribe closure
removes both occurrences, because `filter((l) => l !== listener)` drops
every occurrence — the collection shrinks by two, not by at most one. -/
theorem unsubscribe_shrink_cex :
    (subscribe (subscribe (createStore (L := Nat) app) 0) 0).listeners = [0, 0] ∧
      (unsubscribe (subscribe (subscribe (createStore (L := Nat) app) 0) 0)
          0).listeners = [] := by
  constructor <;> rfl

/-- Filtering out a listener reference leaves every other reference's
multiplicity unchanged. -/
theorem count_filter_ne {L : Type} [DecidableEq L] (l l' : L) (h : l' ≠ l)
    (xs : List L) :
    (xs.filter (fun y => y ≠ l)).count l' = xs.count l' := by
  simp only [ne_eq, decide_not]
  induction xs with
  | nil => rfl
  | cons x xs ih =>
      by_cases hx : x = l
      · subst hx
        simp [List.filter_cons, List.count_cons, ih, h]
      · simp [List.filter_cons, List.count_cons, hx, ih]

/-- Filtering out a listener reference removes exactly as many elements as
its multiplicity. -/
theorem length_filter_ne {L : Type} [DecidableEq L] (l : L) (xs : List L) :
    (xs.filter (fun y => y ≠ l)).length + xs.count l = xs.length := by
  simp only [ne_eq, decide_not]
  induction xs with
  | nil => rfl
  | cons x xs ih =>
      by_cases hx : x = l
      · subst hx
        simp [List.filter_cons, List.count_cons]
        omega
      · simp [List.filter_cons, List.count_cons, hx, Ne.symm hx]
        omega

/-- C5 amended: invoking the unsubscribe closure removes every occurrence
of the registered listener reference and no other listener (so the
collection shrinks by exactly one whenever the listener was registered
once, but by more when the same reference was registered several times);
invoking it a second time is a no-op that neither throws nor removes a
different listener; and no dispatch performed after the unsubscribe ever
invokes the removed listener. -/
theorem unsubscribe_removes_listener {σ α L : Type} [DecidableEq L]
    (st : Store σ α L) (l : L) :
    ((unsubscribe st l).listeners.count l = 0) ∧
    (∀ l', l' ≠ l →
      (unsubscribe st l).listeners.count l' = st.listeners.count l') ∧
    (st.listeners.count l = 1 →
      (unsubscribe st l).listeners.length + 1 = st.listeners.length) ∧
    (unsubscribe (unsubscribe st l) l = unsubscribe st l) ∧
    (∀ a : α, l ∉ (dispatch (unsubscribe st l) a).2.1) := by
  refine ⟨?_, ?_, ?_, ?_, ?_⟩
  · simp [unsubscribe, List.count_eq_zero, List.mem_filter]
  · intro l' hl'
    simpa [unsubscribe] using count_filter_ne l l' hl' st.listeners
  · intro hcount
    have := length_filter_ne l st.listeners
    simp only [unsubscribe]
    omega
  · have h2 : (st.listeners.filter (fun y => y ≠ l)).filter (fun y => y ≠ l)
        = st.listeners.filter (fun y => y ≠ l) :=
      List.filter_eq_self.mpr (fun a ha => (List.mem_filter.mp ha).2)
    simp [unsubscribe, h2]
  · intro a
    simp [dispatch, unsubscribe, List.mem_filter]

/-- Witness for `unsubscribe_removes_listener` at a concrete store holding
the two distinct listener references `3` and `4`. -/
theorem unsubscribe_removes_listener_witness :
    ((unsubscribe (subscribe (subscribe (createStore (L := Nat) app) 3) 4)
        4).listeners.count 3 =
      (subscribe (subscribe (createStore (L := Nat) app) 3) 4).listeners.count 3) ∧
    ((unsubscribe (subscribe (subscribe (createStore (L := Nat) app) 3) 4)
        4).listeners.length + 1 =
      (subscribe (subscribe (createStore (L := Nat) app) 3) 4).listeners.length) :=
  ⟨(unsubscribe_removes_listener
      (subscribe (subscribe (createStore (L := Nat) app) 3) 4) 4).2.1 3 (by decide),
   (unsubscribe_removes_listener
      (subscribe (subscribe (createStore (L := Nat) app) 3) 4) 4).2.2.1 (by decide)⟩

/-- C6: a successful dispatch invokes exactly the listeners currently in
the subscriber collection, in registration order (the invocation sequence
is the collection itself); in particular two distinct listeners subscribed
in sequence on a fresh store are each invoked exactly once per dispatch,
in registration order. -/
theorem dispatch_notifies_in_order {σ α L : Type} [DecidableEq L]
    (st : Store σ α L) (a : α) (l₁ l₂ : L) (h : l₁ ≠ l₂) :
    ((dispatch st a).2.1 = st.listeners) ∧
    ((dispatch (subscribe (subscribe (createStore (L := L) st.reducer) l₁) l₂)
        a).2.1 = [l₁, l₂]) ∧
    ([l₁, l₂].count l₁ = 1 ∧ [l₁, l₂].count l₂ = 1) := by
  refine ⟨rfl, rfl, ?_, ?_⟩
  · simp [List.count_cons, h]
  · simp [List.count_cons, Ne.symm h]

/-- Witness for `dispatch_notifies_in_order`: the two distinct listener
references `0` and `1` subscribed on a fresh `app` store are notified as
the sequence `[0, 1]`. -/
theorem dispatch_notifies_in_order_witness :
    (dispatch (subscribe (subscribe (createStore (L := Nat) app) 0) 1)
        (Action.unknown "X")).2.1 = [0, 1] :=
  (dispatch_notifies_in_order (createStore (L := Nat) app) (Action.unknown "X")
      0 1 (by decide)).2.1

/-- C7: every action kind a slice reducer does not recognize falls to its
`default` branch, which returns the prior sub-state itself (in the source,
literally the `state` parameter, so reference equality holds); hence the
aggregate state built by `app` from an unrecognized action has every slice
equal to its prior value. -/
theorem unrecognized_action_prior_state :
    (∀ (s : List Todo) (g : Goal) (i : Nat) (ty : String),
        todos (some s) (Action.addGoal g) = s ∧
        todos (some s) (Action.removeGoal i) = s ∧
        todos (some s) (Action.unknown ty) = s) ∧
    (∀ (s : List Goal) (t : Todo) (i : Nat) (ty : String),
        goals (some s) (Action.addTodo t) = s ∧
        goals (some s) (Action.removeTodo i) = s ∧
        goals (some s) (Action.toggleTodo i) = s ∧
        goals (some s) (Action.unknown ty) = s) ∧
    (∀ (st : AppState) (ty : String),
        (app (some st) (Action.unknown ty)).todos = st.todos ∧
        (app (some st) (Action.unknown ty)).goals = st.goals) :=
  ⟨fun _ _ _ _ => ⟨rfl, rfl, rfl⟩,
   fun _ _ _ _ => ⟨rfl, rfl, rfl, rfl⟩,
   fun _ _ => ⟨rfl, rfl⟩⟩

/-- C8: toggle is self-inverse — dispatching `TOGGLE_TODO` for the same
identifier twice in succession restores the slice exactly: the matching
entity gets its original `complete` flag back (the copy made by
`Object.assign` preserves all other fields) and every other entity is the
value it was before the first toggle. -/
theorem toggle_self_inverse (s : List Todo) (i : Nat) :
    todos (some (todos (some s) (Action.toggleTodo i))) (Action.toggleTodo i)
      = s := by
  induction s with
  | nil => rfl
  | cons t ts ih =>
      simp only [todos, Option.getD_some, List.map_cons] at ih ⊢
      rw [ih]
      by_cases h : t.id = i
      · cases t
        simp_all
      · simp [h]

/-- Run a sequence of actions through the `todos` slice reducer, as a
sequence of dispatches does. -/
def todosFold (s : List Todo) (as : List Action) : List Todo :=
  as.foldl (fun st a => todos (some st) a) s

/-- Run a sequence of actions through the `goals` slice reducer, as a
sequence of dispatches does. -/
def goalsFold (s : List Goal) (as : List Action) : List Goal :=
  as.foldl (fun st a => goals (some st) a) s

/-- Folding a concatenation of action sequences folds them in turn. -/
theorem todosFold_append (s : List Todo) (as bs : List Action) :
    todosFold s (as ++ bs) = todosFold (todosFold s as) bs := by
  simp [todosFold, List.foldl_append]

/-- Folding a concatenation of action sequences folds them in turn. -/
theorem goalsFold_append (s : List Goal) (as bs : List Action) :
    goalsFold s (as ++ bs) = goalsFold (goalsFold s as) bs := by
  simp [goalsFold, List.foldl_append]

/-- A sequence of `ADD_TODO` dispatches appends the items in order. -/
theorem todosFold_adds (s ts : List Todo) :
    todosFold s (ts.map Action.addTodo) = s ++ ts := by
  induction ts generalizing s with
  | nil => simp [todosFold]
  | cons t ts ih =>
      show todosFold (s ++ [t]) (ts.map Action.addTodo) = s ++ t :: ts
      rw [ih]
      simp

/-- A sequence of `ADD_GOAL` dispatches appends the items in order. -/
theorem goalsFold_adds (s gs : List Goal) :
    goalsFold s (gs.map Action.addGoal) = s ++ gs := by
  induction gs generalizing s with
  | nil => simp [goalsFold]
  | cons g gs ih =>
      show goalsFold (s ++ [g]) (gs.map Action.addGoal) = s ++ g :: gs
      rw [ih]
      simp

/-- Filtering a todo list on an identifier none of its entities carries
keeps the list intact. -/
theorem todos_filter_ne_id (i : Nat) (l : List Todo)
    (h : ∀ x ∈ l, x.id ≠ i) :
    l.filter (fun todo => todo.id ≠ i) = l :=
  List.filter_eq_self.mpr (fun a ha => decide_eq_true (h a ha))

/-- Filtering a goal list on an identifier none of its entities carries
keeps the list intact. -/
theorem goals_filter_ne_id (i : Nat) (l : List Goal)
    (h : ∀ x ∈ l, x.id ≠ i) :
    l.filter (fun goal => goal.id ≠ i) = l :=
  List.filter_eq_self.mpr (fun a ha => decide_eq_true (h a ha))

/-- C9: add-then-remove round trip, for both slices — dispatching the add
action for an item whose identifier is fresh, then (possibly after adds of
differently-identified items) the remove action for that identifier,
yields the slice as it was before the add followed by the in-between
items, order and membership untouched. -/
theorem add_then_remove_roundtrip (s ts : List Todo) (t : Todo)
    (gs gs' : List Goal) (g : Goal)
    (hs : ∀ x ∈ s, x.id ≠ t.id) (hts : ∀ x ∈ ts, x.id ≠ t.id)
    (hgs : ∀ x ∈ gs, x.id ≠ g.id) (hgs' : ∀ x ∈ gs', x.id ≠ g.id) :
    todosFold s
        (Action.addTodo t :: ts.map Action.addTodo ++ [Action.removeTodo t.id])
      = s ++ ts ∧
    goalsFold gs
        (Action.addGoal g :: gs'.map Action.addGoal ++ [Action.removeGoal g.id])
      = gs ++ gs' := by
  constructor
  · show todosFold (s ++ [t])
        (ts.map Action.addTodo ++ [Action.removeTodo t.id]) = s ++ ts
    rw [todosFold_append, todosFold_adds]
    show (s ++ [t] ++ ts).filter (fun todo => todo.id ≠ t.id) = s ++ ts
    rw [List.filter_append, List.filter_append, todos_filter_ne_id t.id s hs,
      todos_filter_ne_id t.id ts hts]
    simp
  · show goalsFold (gs ++ [g])
        (gs'.map Action.addGoal ++ [Action.removeGoal g.id]) = gs ++ gs'
    rw [goalsFold_append, goalsFold_adds]
    show (gs ++ [g] ++ gs').filter (fun goal => goal.id ≠ g.id) = gs ++ gs'
    rw [List.filter_append, List.filter_append, goals_filter_ne_id g.id gs hgs,
      goals_filter_ne_id g.id gs' hgs']
    simp

/-- Witness for `add_then_remove_roundtrip` at concrete slices: todos
`[{id 1}]` with item `{id 2}` added and removed around an add of `{id 3}`,
and goals `[{id 1}]` with goal `{id 2}` added then removed. -/
theorem add_then_remove_roundtrip_witness :
    todosFold [⟨1, "a", false⟩]
        (Action.addTodo ⟨2, "b", false⟩ ::
          [(⟨3, "c", true⟩ : Todo)].map Action.addTodo ++ [Action.removeTodo 2])
      = [⟨1, "a", false⟩] ++ [⟨3, "c", true⟩] ∧
    goalsFold [⟨1, "g1"⟩]
        (Action.addGoal ⟨2, "g2"⟩ ::
          ([] : List Goal).map Action.addGoal ++ [Action.removeGoal 2])
      = [⟨1, "g1"⟩] ++ [] :=
  add_then_remove_roundtrip [⟨1, "a", false⟩] [⟨3, "c", true⟩] ⟨2, "b", false⟩
    [⟨1, "g1"⟩] [] ⟨2, "g2"⟩
    (by decide) (by decide) (by decide) (by decide)

/-- C10: listeners are notified on every dispatch unconditionally, not
only when the state changes — dispatching an action of unrecognized kind
leaves the aggregate state value unchanged yet still notifies every
currently subscribed listener; in general the invocation sequence is
always exactly the current listener list. -/
theorem dispatch_notifies_unconditionally (s : AppState) (ls : List Nat)
    (ty : String) :
    ((dispatch
        ({ reducer := app, state := some s, listeners := ls } :
          Store AppState Action Nat) (Action.unknown ty)).2.1 = ls) ∧
    (getState (dispatch
        ({ reducer := app, state := some s, listeners := ls } :
          Store AppState Action Nat) (Action.unknown ty)).1 = some s) ∧
    (∀ (τ β M : Type) (st : Store τ β M) (a : β),
        (dispatch st a).2.1 = st.listeners) := by
  refine ⟨rfl, ?_, fun _ _ _ _ _ => rfl⟩
  cases s
  rfl

end Redux
